import Mathlib

/-!
# Supply Chain Guardian — risk assessment & alerting engine, shallow embedding

Shallow embedding of the risk-assessment and alerting engine of the
`supply-chain-guardian` repository, translated from the Python sources
(`database.py`, `alerting.py`, `external_services.py`,
`agents/strat_agent.py`), together with theorems settling the frozen claims
about the natural-language specification.

Modelling conventions:
* Python integers become `Int` (stock levels, thresholds, delays); numeric
  values that may be fractional in the real feed (wind speed, temperature,
  confidence) become `Rat`.
* Timestamps (`created_at`, `assessed_at`, dates) are not modelled except
  where a claim needs them: `resolved_at` is kept as an `Option String`
  because the alert-resolution claims talk about it, and forecast dates are
  produced by an abstract clock `dateOf : Nat → String`.
* The fallible network calls of `WeatherService` are modelled by an explicit
  `FetchOutcome` argument: `.ok` is a successful HTTP response already parsed
  into the dictionary the code builds, `.error` is any raised exception
  (unreachable host, bad API key, HTTP error status).  The Python
  `try/except` fallback becomes a total `match`.
* The SQL store becomes an explicit `DBState` record threaded through the
  operations of `DatabaseManager`.
-/

namespace SCG

/-- `Product` model (database.py lines 15-29). -/
structure Product where
  id : String
  name : String
  stock_level : Int
  reorder_threshold : Int
  lead_time_days : Int
  supplier_location : String
  warehouse_location : String
  status : String
deriving DecidableEq

/-- `StockAlert` model (database.py lines 31-42).  `resolved` defaults to
`False` and `resolved_at` to `NULL` on insertion. -/
structure StockAlert where
  id : Nat
  product_id : String
  alert_type : String
  severity : String
  message : String
  resolved : Bool
  resolved_at : Option String
deriving DecidableEq

/-- `ShipmentTracking` model (database.py lines 44-58). -/
structure ShipmentTracking where
  product_id : String
  quantity : Int
  origin : String
  destination : String
  expected_date : String
  status : String
  delay_days : Int
  delay_reason : String
deriving DecidableEq

/-- The persistent store visible to the engine: the three tables it reads and
writes, plus the autoincrement counter backing `StockAlert.id`. -/
structure DBState where
  products : List Product
  shipments : List ShipmentTracking
  alerts : List StockAlert
  next_alert_id : Nat
deriving DecidableEq

/-- Status recomputation inside `DatabaseManager.update_stock`
(database.py lines 256-262). -/
def stockStatusOf (new_stock reorder_threshold : Int) : String :=
  if new_stock ≤ 0 then "Critical"
  else if new_stock ≤ reorder_threshold then "Low"
  else "OK"

/-- The mutation `DatabaseManager.update_stock` applies to the matched
product row (database.py lines 252-262): write the new stock level and
recompute `status` from it and the row's threshold. -/
def updateProductStock (p : Product) (new_stock : Int) : Product :=
  { p with stock_level := new_stock,
           status := stockStatusOf new_stock p.reorder_threshold }

/-- Update the first product row matching `product_id`, as the SQL
`filter(...).first()` of `update_stock` does; `none` when no row matches. -/
def updateFirstProduct (ps : List Product) (product_id : String)
    (new_stock : Int) : Option (List Product) :=
  match ps with
  | [] => none
  | p :: rest =>
    if p.id == product_id then
      some (updateProductStock p new_stock :: rest)
    else
      (updateFirstProduct rest product_id new_stock).map (fun l => p :: l)

/-- `DatabaseManager.update_stock` (database.py lines 248-266): returns
`true` and the updated store when the product exists, otherwise `false` and
the unchanged store. -/
def update_stock (db : DBState) (product_id : String) (new_stock : Int) :
    Bool × DBState :=
  match updateFirstProduct db.products product_id new_stock with
  | some ps => (true, { db with products := ps })
  | none => (false, db)

/-- `DatabaseManager.create_alert` (database.py lines 268-279): inserts a new
`StockAlert` row with a fresh autoincremented id, `resolved = False` and
`resolved_at = NULL`, and returns the id.  No lookup for an existing
unresolved alert of the same `(product_id, alert_type)` key is performed. -/
def create_alert (db : DBState) (product_id alert_type severity message : String) :
    Nat × DBState :=
  let a : StockAlert :=
    { id := db.next_alert_id, product_id := product_id,
      alert_type := alert_type, severity := severity, message := message,
      resolved := false, resolved_at := none }
  (a.id, { db with alerts := db.alerts ++ [a],
                   next_alert_id := db.next_alert_id + 1 })

/-- `DatabaseManager.get_active_alerts` (database.py lines 281-284). -/
def get_active_alerts (db : DBState) : List StockAlert :=
  db.alerts.filter (fun a => !a.resolved)

/-- `DatabaseManager.get_shipments_by_status` (database.py lines 286-291). -/
def get_shipments_by_status (db : DBState) (status : String) :
    List ShipmentTracking :=
  db.shipments.filter (fun s => s.status == status)

/-- The dictionary `AlertingService._create_alert` returns for each created
alert (alerting.py lines 79-86); `created_at` is not modelled. -/
structure AlertData where
  alert_id : Nat
  product_id : String
  alert_type : String
  severity : String
  message : String
deriving DecidableEq

/-- `AlertingService._create_alert` (alerting.py lines 74-92): persist the
alert through `create_alert`, build the payload, and dispatch a notification
when the severity is `High` or `Critical` (lines 88-90).  Result:
`(payload, notifications dispatched, updated store)`. -/
def alerting_create_alert (db : DBState)
    (product_id alert_type severity message : String) :
    AlertData × List AlertData × DBState :=
  let r := create_alert db product_id alert_type severity message
  let a : AlertData :=
    { alert_id := r.1, product_id := product_id, alert_type := alert_type,
      severity := severity, message := message }
  (a, if severity == "High" || severity == "Critical" then [a] else [], r.2)

/-- The per-product body of the first loop of
`AlertingService.check_and_alert` (alerting.py lines 39-58), iterated over
the product list: `critical_stock`/`High` when `stock_level <= 0`, otherwise
`low_stock`/`Medium` when `stock_level <= reorder_threshold`.  Result:
`(alerts created, notifications dispatched, updated store)`. -/
def scanProducts (ps : List Product) (db : DBState) :
    List AlertData × List AlertData × DBState :=
  match ps with
  | [] => ([], [], db)
  | p :: rest =>
    if p.stock_level ≤ 0 then
      let c := alerting_create_alert db p.id "critical_stock" "High"
        (p.name ++ " is OUT OF STOCK! Immediate action required.")
      let r := scanProducts rest c.2.2
      (c.1 :: r.1, c.2.1 ++ r.2.1, r.2.2)
    else if p.stock_level ≤ p.reorder_threshold then
      let c := alerting_create_alert db p.id "low_stock" "Medium"
        (p.name ++ " stock is below reorder threshold (" ++
          toString p.stock_level ++ "/" ++ toString p.reorder_threshold ++ ")")
      let r := scanProducts rest c.2.2
      (c.1 :: r.1, c.2.1 ++ r.2.1, r.2.2)
    else
      scanProducts rest db

/-- The delayed-shipment loop of `AlertingService.check_and_alert`
(alerting.py lines 60-70), iterated over the shipments already filtered to
status `delayed`: `delayed_shipment`/`High` when `delay_days > 3`. -/
def scanShipments (ss : List ShipmentTracking) (db : DBState) :
    List AlertData × List AlertData × DBState :=
  match ss with
  | [] => ([], [], db)
  | s :: rest =>
    if s.delay_days > 3 then
      let c := alerting_create_alert db s.product_id "delayed_shipment" "High"
        ("Shipment delayed by " ++ toString s.delay_days ++
          " days. Reason: " ++ s.delay_reason)
      let r := scanShipments rest c.2.2
      (c.1 :: r.1, c.2.1 ++ r.2.1, r.2.2)
    else
      scanShipments rest db

/-- `AlertingService.check_and_alert` (alerting.py lines 34-72): scan all
products, then all shipments with status `delayed`, creating alerts for each
triggering condition found.  Result: `(alerts created this scan,
notifications dispatched this scan, updated store)`. -/
def check_and_alert (db : DBState) : List AlertData × List AlertData × DBState :=
  let rp := scanProducts db.products db
  let rs := scanShipments (get_shipments_by_status rp.2.2 "delayed") rp.2.2
  (rp.1 ++ rs.1, rp.2.1 ++ rs.2.1, rs.2.2)

/-- Stock-level alerts (types `critical_stock` and `low_stock`) of one scan
result that belong to a given product, projected to `(type, severity)`. -/
def stockAlertKinds (res : List AlertData) (pid : String) :
    List (String × String) :=
  (res.filter (fun a =>
    a.product_id == pid &&
      (a.alert_type == "critical_stock" || a.alert_type == "low_stock"))).map
    (fun a => (a.alert_type, a.severity))

/-! ## Weather service (external_services.py) -/

/-- ASCII lower-casing of one character — the effect of Python `str.lower`
on the ASCII condition/location strings the engine compares. -/
def lowerChar (c : Char) : Char :=
  if 'A' ≤ c ∧ c ≤ 'Z' then Char.ofNat (c.toNat + 32) else c

/-- Python `str.lower` on ASCII strings. -/
def pyLower (s : String) : String := ⟨s.data.map lowerChar⟩

/-- ASCII upper-casing of one character — the effect of Python `str.upper`. -/
def upperChar (c : Char) : Char :=
  if 'a' ≤ c ∧ c ≤ 'z' then Char.ofNat (c.toNat - 32) else c

/-- Python `str.upper` on ASCII strings. -/
def pyUpper (s : String) : String := ⟨s.data.map upperChar⟩

/-- Whether `pre` is a prefix of `l` (character-list version). -/
def charPrefixOf : List Char → List Char → Bool
  | [], _ => true
  | _ :: _, [] => false
  | a :: as, b :: bs => a == b && charPrefixOf as bs

/-- Whether `needle` occurs contiguously inside `hay`. -/
def charInfixOf (needle : List Char) : List Char → Bool
  | [] => charPrefixOf needle []
  | b :: bs => charPrefixOf needle (b :: bs) || charInfixOf needle bs

/-- Python's `needle in hay` substring test. -/
def pyContains (hay needle : String) : Bool := charInfixOf needle.data hay.data

/-- The dictionary `WeatherService.get_current_weather` returns
(external_services.py lines 42-50); the timestamp is not modelled. -/
structure WeatherData where
  location : String
  temperature : Rat
  condition : String
  description : String
  wind_speed : Rat
  humidity : Int
deriving DecidableEq

/-- One entry of the forecast list (external_services.py lines 78-84). -/
structure ForecastDay where
  date : String
  temperature : Rat
  condition : String
  description : String
  wind_speed : Rat
deriving DecidableEq

/-- The dictionary `WeatherService.assess_logistics_risk` returns
(external_services.py lines 126-133); `current_weather` and `assessed_at`
are not modelled. -/
structure RiskAssessment where
  location : String
  risk_level : String
  delay_estimate_days : Int
  risk_factors : List String
deriving DecidableEq

/-- The `mock_conditions` table of `WeatherService._get_mock_weather`
(external_services.py lines 137-144), in insertion order:
`(key, temp, condition, description, wind)`. -/
def mock_conditions : List (String × Rat × String × String × Rat) :=
  [("Mumbai", 32, "Clear", "clear sky", 5),
   ("Kochi", 28, "Rain", "heavy intensity rain", 12),
   ("Ho Chi Minh", 30, "Clouds", "scattered clouds", 7),
   ("California", 22, "Clear", "clear sky", 4),
   ("Florida", 27, "Thunderstorm", "thunderstorm", 18),
   ("Texas", 35, "Clear", "extreme heat", 8)]

/-- `WeatherService._get_mock_weather` (external_services.py lines 135-168):
first table entry whose key occurs (case-insensitively) inside the location,
else the default clear-sky record. -/
def get_mock_weather (location : String) : WeatherData :=
  match mock_conditions.find?
      (fun e => pyContains (pyLower location) (pyLower e.1)) with
  | some e =>
    { location := location, temperature := e.2.1, condition := e.2.2.1,
      description := e.2.2.2.1, wind_speed := e.2.2.2.2, humidity := 65 }
  | none =>
    { location := location, temperature := 25, condition := "Clear",
      description := "clear sky", wind_speed := 5, humidity := 60 }

/-- `WeatherService._get_mock_forecast` (external_services.py lines 170-185);
`dateOf` abstracts the wall-clock date formatting. -/
def get_mock_forecast (dateOf : Nat → String) (days : Nat) : List ForecastDay :=
  (List.range days).map (fun i =>
    { date := dateOf i,
      temperature := 25 + ((i % 5 : Nat) : Rat),
      condition := if i % 3 ≠ 0 then "Clear" else "Rain",
      description := if i % 3 ≠ 0 then "clear sky" else "light rain",
      wind_speed := 5 + ((i % 3 : Nat) : Rat) })

/-- Outcome of one HTTP request of the weather provider: `.ok` is a parsed
successful response, `.error` is any raised exception (unreachable host,
invalid API key, non-2xx status, timeout). -/
inductive FetchOutcome (α : Type) where
  | ok : α → FetchOutcome α
  | error : String → FetchOutcome α
deriving DecidableEq

/-- `WeatherService.__init__` (external_services.py lines 11-20): the
service is in mock mode exactly when no API key is configured. -/
structure WeatherService where
  api_key : Option String
deriving DecidableEq

/-- `self.mock_mode` flag (external_services.py lines 16-20). -/
def mock_mode (svc : WeatherService) : Bool := svc.api_key.isNone

/-- `WeatherService.get_current_weather` (external_services.py lines 22-53):
mock data when unconfigured; otherwise the network response, falling back to
mock data when the request raises. -/
def get_current_weather (svc : WeatherService) (location : String)
    (net : FetchOutcome WeatherData) : WeatherData :=
  if mock_mode svc then get_mock_weather location
  else
    match net with
    | .ok w => w
    | .error _ => get_mock_weather location

/-- `WeatherService.get_weather_forecast` (external_services.py lines
55-89), with the same mock/fallback structure as `get_current_weather`. -/
def get_weather_forecast (svc : WeatherService) (_location : String)
    (dateOf : Nat → String) (days : Nat)
    (net : FetchOutcome (List ForecastDay)) : List ForecastDay :=
  if mock_mode svc then get_mock_forecast dateOf days
  else
    match net with
    | .ok f => f
    | .error _ => get_mock_forecast dateOf days

/-- Severe current conditions (external_services.py line 104). -/
def severeCurrentConditions : List String := ["thunderstorm", "tornado", "hurricane"]

/-- Adverse precipitation conditions (external_services.py line 108). -/
def adversePrecipConditions : List String := ["rain", "snow", "drizzle"]

/-- Severe forecast conditions (external_services.py line 120). -/
def severeForecastConditions : List String := ["thunderstorm", "snow", "hurricane"]

/-- The current-conditions branch of `assess_logistics_risk`
(external_services.py lines 100-115): an exclusive `if`/`elif` chain whose
result is `(risk_level, risk_factors, delay_estimate)`. -/
def currentConditionsRisk (w : WeatherData) : String × List String × Int :=
  let condition := pyLower w.condition
  if condition ∈ severeCurrentConditions then
    ("High", ["Severe weather: " ++ w.description], 3)
  else if condition ∈ adversePrecipConditions ∧ w.wind_speed > 10 then
    ("Medium", ["Adverse conditions: " ++ w.description], 1)
  else if w.wind_speed > 15 then
    ("Medium", ["High winds: " ++ toString w.wind_speed ++ " m/s"], 1)
  else
    ("Low", [], 0)

/-- One iteration of the forecast loop of `assess_logistics_risk`
(external_services.py lines 118-124). -/
def forecastStep (acc : String × List String × Int) (day : ForecastDay) :
    String × List String × Int :=
  if pyLower day.condition ∈ severeForecastConditions then
    ((if acc.1 == "Low" then "Medium" else acc.1),
     acc.2.1 ++ ["Upcoming: " ++ day.description ++ " on " ++ day.date],
     acc.2.2 + 2)
  else acc

/-- The risk-classification body of `WeatherService.assess_logistics_risk`
(external_services.py lines 96-133), applied to already-fetched current
weather and forecast. -/
def assessRisk (location : String) (w : WeatherData)
    (forecast : List ForecastDay) : RiskAssessment :=
  let r := forecast.foldl forecastStep (currentConditionsRisk w)
  { location := location, risk_level := r.1,
    delay_estimate_days := r.2.2, risk_factors := r.2.1 }

/-- `WeatherService.assess_logistics_risk` (external_services.py lines
91-133): fetch current weather and a 7-day forecast (each with its own
mock/fallback behaviour) and classify. -/
def assess_logistics_risk (svc : WeatherService) (location : String)
    (netW : FetchOutcome WeatherData) (netF : FetchOutcome (List ForecastDay))
    (dateOf : Nat → String) : RiskAssessment :=
  assessRisk location (get_current_weather svc location netW)
    (get_weather_forecast svc location dateOf 7 netF)

/-! ## Strategy agent tool functions (agents/strat_agent.py)

The three tool functions consume the store and the weather service.  The
weather service is abstracted as `riskOf : String → RiskAssessment`, the
per-location result of `WeatherService.assess_logistics_risk` (a pure
query). -/

/-- One entry of the list `predict_shipment_delays` returns
(agents/strat_agent.py lines 58-67). -/
structure DelayPrediction where
  product_id : String
  origin : String
  destination : String
  expected_date : String
  predicted_delay_days : Int
  risk_level : String
  risk_factors : List String
  confidence : Rat
deriving DecidableEq

/-- The per-shipment body of `predict_shipment_delays`
(agents/strat_agent.py lines 51-67): assess origin and destination, keep
whichever produced the strictly larger delay — the destination on a tie —
and attach the fixed confidence mapping. -/
def predictOne (s : ShipmentTracking) (riskOf : String → RiskAssessment) :
    DelayPrediction :=
  let origin_risk := riskOf s.origin
  let dest_risk := riskOf s.destination
  let max_risk :=
    if origin_risk.delay_estimate_days > dest_risk.delay_estimate_days
    then origin_risk else dest_risk
  { product_id := s.product_id, origin := s.origin,
    destination := s.destination, expected_date := s.expected_date,
    predicted_delay_days := max_risk.delay_estimate_days,
    risk_level := max_risk.risk_level,
    risk_factors := max_risk.risk_factors,
    confidence := if max_risk.risk_level == "High" then 85/100 else 7/10 }

/-- `predict_shipment_delays` (agents/strat_agent.py lines 14-69): restrict
to `in_transit` shipments, optionally filtered by upper-cased product id,
and map the per-shipment prediction over them. -/
def predict_shipment_delays (db : DBState) (product_id : Option String)
    (riskOf : String → RiskAssessment) : List DelayPrediction :=
  let shipments := db.shipments.filter (fun s =>
    s.status == "in_transit" &&
      match product_id with
      | some pid => s.product_id == pyUpper pid
      | none => true)
  shipments.map (fun s => predictOne s riskOf)

/-- One entry of the list `calculate_reorder_recommendations` returns
(agents/strat_agent.py lines 102-113). -/
structure ReorderRecommendation where
  product_id : String
  product_name : String
  current_stock : Int
  reorder_threshold : Int
  normal_lead_time : Int
  adjusted_lead_time : Int
  days_until_stockout : Int
  urgency : String
  recommended_quantity : Int
  reasoning : String
deriving DecidableEq

/-- The per-product body of `calculate_reorder_recommendations`
(agents/strat_agent.py lines 83-113).  Python's `//` is floor division,
hence `Int.fdiv`. -/
def reorderOne (p : Product) (riskOf : String → RiskAssessment) :
    Option ReorderRecommendation :=
  let days_until_stockout := max 0 ((p.stock_level - 5).fdiv 2)
  let supplier_risk := riskOf p.supplier_location
  let adjusted_lead_time := p.lead_time_days + supplier_risk.delay_estimate_days
  let ur :=
    if days_until_stockout < adjusted_lead_time then ("High", true)
    else if days_until_stockout < adjusted_lead_time + 7 then ("Medium", true)
    else ("Low", false)
  if ur.2 || p.stock_level ≤ p.reorder_threshold then
    some { product_id := p.id, product_name := p.name,
           current_stock := p.stock_level,
           reorder_threshold := p.reorder_threshold,
           normal_lead_time := p.lead_time_days,
           adjusted_lead_time := adjusted_lead_time,
           days_until_stockout := days_until_stockout,
           urgency := ur.1,
           recommended_quantity := max 50 (p.reorder_threshold * 2),
           reasoning := "Stock below threshold. Weather risk adds " ++
             toString supplier_risk.delay_estimate_days ++ " days to delivery." }
  else none

/-- `calculate_reorder_recommendations` (agents/strat_agent.py lines
71-115). -/
def calculate_reorder_recommendations (db : DBState)
    (riskOf : String → RiskAssessment) : List ReorderRecommendation :=
  db.products.filterMap (fun p => reorderOne p riskOf)

/-- `assess_supply_chain_resilience` (agents/strat_agent.py lines 117-172),
reduced to the `(resilience_score, health_status)` pair the claims are
about.  `list(set(...))` becomes `List.dedup` (same cardinality). -/
def assess_supply_chain_resilience (db : DBState)
    (riskOf : String → RiskAssessment) : Int × String :=
  let products := db.products
  let alerts := get_active_alerts db
  let critical_products := (products.filter (fun p => p.status == "Critical")).length
  let low_products := (products.filter (fun p => p.status == "Low")).length
  let supplier_locations := (products.map (fun p => p.supplier_location)).dedup
  let high_risk_locations := supplier_locations.filter (fun l =>
    (riskOf l).risk_level == "High" || (riskOf l).risk_level == "Medium")
  let score : Int := 100 - critical_products * 15 - low_products * 5 -
    high_risk_locations.length * 10 - alerts.length * 5
  let score := max 0 (min 100 score)
  let health_status :=
    if score ≥ 80 then "Excellent"
    else if score ≥ 60 then "Good"
    else if score ≥ 40 then "Fair"
    else "At Risk"
  (score, health_status)

/-! ## Reference formulations written from the specification's words

These definitions are NOT translated from the source; they state, for the
refinement-style claims, the behaviour the specification describes, to be
compared against the source-derived definitions above. -/

/-- The delay model as claim C4 words it: the sum of the increments of
every classification rule whose trigger condition holds — 3 for a severe
current storm, 1 for adverse precipitation with wind above 10, 1 for wind
above 15, and 2 per severe forecast day. -/
def claimedDelaySum (w : WeatherData) (forecast : List ForecastDay) : Int :=
  (if pyLower w.condition ∈ severeCurrentConditions then 3 else 0) +
  (if pyLower w.condition ∈ adversePrecipConditions ∧ w.wind_speed > 10
    then 1 else 0) +
  (if w.wind_speed > 15 then 1 else 0) +
  2 * (((forecast.filter (fun d =>
      decide (pyLower d.condition ∈ severeForecastConditions))).length : Nat) : Int)

/-- The delay increment contributed by the current-conditions `if`/`elif`
chain: the increment of the first rule that matches, the later rules being
shadowed. -/
def firstRuleDelay (w : WeatherData) : Int :=
  if pyLower w.condition ∈ severeCurrentConditions then 3
  else if pyLower w.condition ∈ adversePrecipConditions ∧ w.wind_speed > 10
    then 1
  else if w.wind_speed > 15 then 1
  else 0

/-- Number of forecast days whose condition is in the severe class. -/
def severeForecastDays (forecast : List ForecastDay) : Nat :=
  (forecast.filter (fun d =>
    decide (pyLower d.condition ∈ severeForecastConditions))).length

/-! ## Concrete inputs used by the settled claims -/

/-- An out-of-stock product, as in the spec's `CHIP-X` scenario. -/
def chipXProduct : Product :=
  { id := "CHIP-X", name := "AI Accelerator Chip", stock_level := 0,
    reorder_threshold := 10, lead_time_days := 7,
    supplier_location := "Kochi", warehouse_location := "California",
    status := "Critical" }

/-- A store holding only `chipXProduct`, no shipments, no alerts. -/
def chipXDB : DBState :=
  { products := [chipXProduct], shipments := [], alerts := [],
    next_alert_id := 1 }

/-- `CHIP-X` after replenishment: stock 100, well above the threshold. -/
def replenishedProduct : Product :=
  { chipXProduct with stock_level := 100, status := "OK" }

/-- The unresolved `critical_stock` alert left over from when `CHIP-X`
was out of stock. -/
def staleAlert : StockAlert :=
  { id := 1, product_id := "CHIP-X", alert_type := "critical_stock",
    severity := "High",
    message := "AI Accelerator Chip is OUT OF STOCK! Immediate action required.",
    resolved := false, resolved_at := none }

/-- A store where the triggering condition of `staleAlert` has cleared. -/
def replenishedDB : DBState :=
  { products := [replenishedProduct], shipments := [], alerts := [staleAlert],
    next_alert_id := 2 }

/-- Current weather triggering two of claim C4's rule conditions at once:
rain (adverse precipitation) with wind 20 (above both wind thresholds). -/
def rainGaleWeather : WeatherData :=
  { location := "X", temperature := 20, condition := "Rain",
    description := "heavy rain", wind_speed := 20, humidity := 50 }

/-- Origin-side weather: a thunderstorm (severe class, 3-day increment). -/
def originStormWeather : WeatherData :=
  { location := "A", temperature := 20, condition := "Thunderstorm",
    description := "thunderstorm", wind_speed := 5, humidity := 50 }

/-- Destination-side weather: rain with wind 12 (1-day increment). -/
def destRainWeather : WeatherData :=
  { location := "B", temperature := 20, condition := "Rain",
    description := "heavy rain", wind_speed := 12, humidity := 50 }

/-- One severe forecast day (snow) for the destination (2-day increment). -/
def mockSnowDay : ForecastDay :=
  { date := "2026-10-13", temperature := 0, condition := "Snow",
    description := "snow", wind_speed := 3 }

/-- Per-location assessments produced by the source's own
`assess_logistics_risk` on the above weather: origin delay 3 at level High,
destination delay 1 + 2 = 3 at level Medium — a tie in delay with
different levels. -/
def tieRiskOf : String → RiskAssessment := fun loc =>
  if loc == "A" then
    assess_logistics_risk ⟨some "k"⟩ "A" (.ok originStormWeather) (.ok [])
      (fun _ => "")
  else
    assess_logistics_risk ⟨some "k"⟩ "B" (.ok destRainWeather)
      (.ok [mockSnowDay]) (fun _ => "")

/-- The in-transit shipment of the spec's `SENS-9` scenario, rerouted
through the tie locations. -/
def sens9Shipment : ShipmentTracking :=
  { product_id := "SENS-9", quantity := 10, origin := "A", destination := "B",
    expected_date := "2026-10-20", status := "in_transit", delay_days := 0,
    delay_reason := "" }

/-! ## Theorems -/

/-! ### Hazard-classification lemmas -/

theorem severeForecastDays_cons (d : ForecastDay) (f : List ForecastDay) :
    severeForecastDays (d :: f) =
      (if pyLower d.condition ∈ severeForecastConditions then 1 else 0) +
        severeForecastDays f := by
  by_cases h : pyLower d.condition ∈ severeForecastConditions <;>
    simp [severeForecastDays, List.filter_cons, h, Nat.add_comm]

theorem severeForecastDays_append (f1 f2 : List ForecastDay) :
    severeForecastDays (f1 ++ f2) = severeForecastDays f1 + severeForecastDays f2 := by
  simp [severeForecastDays, List.filter_append]

theorem foldl_forecastStep_delay (f : List ForecastDay) :
    ∀ acc : String × List String × Int,
      (f.foldl forecastStep acc).2.2 = acc.2.2 + 2 * (severeForecastDays f : Int) := by
  induction f with
  | nil => intro acc; simp [severeForecastDays]
  | cons d rest ih =>
    intro acc
    rw [List.foldl_cons, ih, severeForecastDays_cons]
    by_cases h : pyLower d.condition ∈ severeForecastConditions
    · simp only [forecastStep, if_pos h]
      push_cast
      ring
    · simp [forecastStep, h]

theorem foldl_forecastStep_level (f : List ForecastDay) :
    ∀ acc : String × List String × Int,
      (f.foldl forecastStep acc).1 =
        if 0 < severeForecastDays f then
          (if acc.1 == "Low" then "Medium" else acc.1)
        else acc.1 := by
  induction f with
  | nil => intro acc; simp [severeForecastDays]
  | cons d rest ih =>
    intro acc
    rw [List.foldl_cons, severeForecastDays_cons]
    by_cases h : pyLower d.condition ∈ severeForecastConditions
    · rw [ih]
      by_cases hl : acc.1 == "Low" <;> simp [forecastStep, h, hl]
    · rw [ih]
      simp [forecastStep, h]

theorem currentConditionsRisk_delay (w : WeatherData) :
    (currentConditionsRisk w).2.2 = firstRuleDelay w := by
  simp only [currentConditionsRisk, firstRuleDelay]
  split_ifs <;> rfl

theorem firstRuleDelay_nonneg (w : WeatherData) : 0 ≤ firstRuleDelay w := by
  simp only [firstRuleDelay]
  split_ifs <;> norm_num

theorem firstRuleDelay_pos_iff (w : WeatherData)
    (h : pyLower w.condition ∉ severeCurrentConditions) :
    0 < firstRuleDelay w ↔
      (pyLower w.condition ∈ adversePrecipConditions ∧ w.wind_speed > 10) ∨
        w.wind_speed > 15 := by
  simp only [firstRuleDelay, if_neg h]
  split_ifs with h1 h2 <;> simp_all

theorem assessRisk_delay_eq (loc : String) (w : WeatherData)
    (f : List ForecastDay) :
    (assessRisk loc w f).delay_estimate_days =
      firstRuleDelay w + 2 * (severeForecastDays f : Int) := by
  simp [assessRisk, foldl_forecastStep_delay, currentConditionsRisk_delay]

theorem assessRisk_level_eq (loc : String) (w : WeatherData)
    (f : List ForecastDay) :
    (assessRisk loc w f).risk_level =
      if pyLower w.condition ∈ severeCurrentConditions then "High"
      else if 0 < firstRuleDelay w ∨ 0 < severeForecastDays f then "Medium"
      else "Low" := by
  simp only [assessRisk, foldl_forecastStep_level]
  by_cases hs : pyLower w.condition ∈ severeCurrentConditions
  · have h1 : (currentConditionsRisk w).1 = "High" := by
      simp [currentConditionsRisk, hs]
    simp [h1, hs]
  · by_cases hm : (pyLower w.condition ∈ adversePrecipConditions ∧
        w.wind_speed > 10) ∨ w.wind_speed > 15
    · have h1 : (currentConditionsRisk w).1 = "Medium" := by
        rcases hm with hm | hm
        · simp [currentConditionsRisk, hs, hm]
        · simp only [currentConditionsRisk, if_neg hs]
          split_ifs <;> rfl
      have hd : 0 < firstRuleDelay w := by
        rw [firstRuleDelay_pos_iff w hs]; exact hm
      simp [h1, hs, hd]
    · have h1 : (currentConditionsRisk w).1 = "Low" := by
        push_neg at hm
        simp only [currentConditionsRisk, if_neg hs]
        split_ifs with h2 h3
        · exact absurd h2.2 (by simpa using hm.1 h2.1)
        · exact absurd h3 (by simpa using hm.2)
        · rfl
      have hd : ¬ 0 < firstRuleDelay w := by
        rw [firstRuleDelay_pos_iff w hs]; exact hm
      simp [h1, hs, hd]

theorem assessRisk_level_mem (loc : String) (w : WeatherData)
    (f : List ForecastDay) :
    (assessRisk loc w f).risk_level ∈ (["Low", "Medium", "High"] : List String) := by
  rw [assessRisk_level_eq]
  split_ifs <;> simp

theorem assess_logistics_risk_ok (k loc : String) (dateOf : Nat → String)
    (w : WeatherData) (f : List ForecastDay) :
    assess_logistics_risk ⟨some k⟩ loc (.ok w) (.ok f) dateOf =
      assessRisk loc w f := by
  simp [assess_logistics_risk, get_current_weather, get_weather_forecast,
    mock_mode]

/-- C1.  The claim says a repeated scan with unchanged facts creates zero
new alerts on the second run, keeping at most one unresolved alert per
`(productId, alertType)` pair.  The code violates this: on a store holding
one out-of-stock product, the second identical run of `check_and_alert`
creates one more alert, leaving two unresolved `(CHIP-X, critical_stock)`
rows with distinct ids — `create_alert` inserts unconditionally, with no
deduplication lookup. -/
theorem duplicate_alert_created_on_second_identical_scan :
    ((check_and_alert chipXDB).1).length = 1 ∧
    ((check_and_alert (check_and_alert chipXDB).2.2).1).length = 1 ∧
    ((get_active_alerts (check_and_alert (check_and_alert chipXDB).2.2).2.2).map
        (fun a => (a.product_id, a.alert_type, a.resolved))) =
      [("CHIP-X", "critical_stock", false),
       ("CHIP-X", "critical_stock", false)] ∧
    ((get_active_alerts (check_and_alert (check_and_alert chipXDB).2.2).2.2).map
        (fun a => a.id)) = [1, 2] := by
  refine ⟨rfl, rfl, rfl, rfl⟩

/-- C2.  The claim says a scan that finds the triggering condition of an
unresolved alert no longer holding marks it Resolved and sets `resolvedAt`.
The code has no resolution logic at all: scanning a store whose only
product is back at stock 100 while an unresolved `critical_stock` alert for
it exists creates no alert but also leaves that alert unresolved with
`resolved_at` still `NULL`. -/
theorem cleared_condition_alert_never_resolved :
    (check_and_alert replenishedDB).1 = [] ∧
    (check_and_alert replenishedDB).2.2.alerts = [staleAlert] ∧
    (get_active_alerts (check_and_alert replenishedDB).2.2).map
        (fun a => (a.product_id, a.alert_type, a.resolved, a.resolved_at)) =
      [("CHIP-X", "critical_stock", false, none)] := by
  refine ⟨rfl, rfl, rfl⟩

/-- C3.  The claim says the notification dispatch fires exactly once, on
the Absent→Active creation of a High/Critical condition, and not again on a
later scan that finds the same condition still holding.  The code dispatches
on every scan: `_create_alert` notifies whenever it creates a High-severity
alert, and the second identical scan creates (and notifies) again. -/
theorem notification_dispatched_again_on_second_identical_scan :
    ((check_and_alert chipXDB).2.1).map (fun a => (a.product_id, a.severity)) =
      [("CHIP-X", "High")] ∧
    ((check_and_alert (check_and_alert chipXDB).2.2).2.1).map
        (fun a => (a.product_id, a.severity)) = [("CHIP-X", "High")] := by
  refine ⟨rfl, rfl⟩

/-- C4 counterexample.  On current weather `Rain` with wind speed 20 and an
empty forecast, the trigger conditions of both the adverse-precipitation
rule (rain, wind > 10) and the wind rule (wind > 15) hold, so the sum of
the increments of every rule whose trigger holds is 2 — but the assessment
returns 1: the current-condition rules are an exclusive `elif` chain and
only the first match contributes. -/
theorem delay_not_sum_of_all_triggered_rules :
    (pyLower rainGaleWeather.condition ∈ adversePrecipConditions ∧
        rainGaleWeather.wind_speed > 10) ∧
    rainGaleWeather.wind_speed > 15 ∧
    claimedDelaySum rainGaleWeather [] = 2 ∧
    (assess_logistics_risk ⟨some "k"⟩ "X" (.ok rainGaleWeather) (.ok [])
        (fun _ => "")).delay_estimate_days = 1 := by
  refine ⟨⟨by decide, by decide⟩, by decide, by decide, rfl⟩

/-- C4 (amended).  The delay estimate equals the increment of the first
current-condition rule whose trigger holds — the three current-condition
rules are mutually exclusive alternatives evaluated in order (3 days severe
storm; else 1 day adverse precipitation with wind above 10; else 1 day wind
above 15) — plus 2 days per forecast day in the severe-storm class; the
delay never decreases as forecast factors accumulate within one assessment
call and is never negative; and the risk level is the maximum severity
among the rules that fired: High when the severe current rule fired, else
Medium when any rule fired, else Low. -/
theorem hazard_delay_first_rule_plus_forecast (k loc : String)
    (dateOf : Nat → String) (w : WeatherData) (f1 f2 : List ForecastDay) :
    (assess_logistics_risk ⟨some k⟩ loc (.ok w) (.ok (f1 ++ f2))
          dateOf).delay_estimate_days =
        firstRuleDelay w + 2 * (severeForecastDays (f1 ++ f2) : Int) ∧
    (assess_logistics_risk ⟨some k⟩ loc (.ok w) (.ok f1)
          dateOf).delay_estimate_days ≤
        (assess_logistics_risk ⟨some k⟩ loc (.ok w) (.ok (f1 ++ f2))
          dateOf).delay_estimate_days ∧
    0 ≤ (assess_logistics_risk ⟨some k⟩ loc (.ok w) (.ok f1)
          dateOf).delay_estimate_days ∧
    (assess_logistics_risk ⟨some k⟩ loc (.ok w) (.ok (f1 ++ f2))
          dateOf).risk_level =
        (if pyLower w.condition ∈ severeCurrentConditions then "High"
         else if 0 < firstRuleDelay w ∨ 0 < severeForecastDays (f1 ++ f2)
           then "Medium"
         else "Low") := by
  rw [assess_logistics_risk_ok, assess_logistics_risk_ok,
    assessRisk_delay_eq, assessRisk_delay_eq, assessRisk_level_eq,
    severeForecastDays_append]
  have h0 := firstRuleDelay_nonneg w
  refine ⟨by push_cast; ring, by omega, by omega, rfl⟩

/-- C5 counterexample.  Using the source's own assessor, the origin yields
delay 3 at level High (thunderstorm) and the destination delay 3 at level
Medium (rain with wind 12, plus one severe forecast day) — a tie in delay.
The claim says the origin is preferred deterministically on a tie, which
would report level High and confidence 0.85; the code's
`origin if origin > dest else dest` picks the destination on a tie and
reports Medium with confidence 0.7. -/
theorem tie_prediction_reports_destination_risk :
    (tieRiskOf "A").delay_estimate_days = 3 ∧
    (tieRiskOf "A").risk_level = "High" ∧
    (tieRiskOf "B").delay_estimate_days = 3 ∧
    (tieRiskOf "B").risk_level = "Medium" ∧
    sens9Shipment.origin = "A" ∧
    sens9Shipment.destination = "B" ∧
    sens9Shipment.status = "in_transit" ∧
    (predictOne sens9Shipment tieRiskOf).predicted_delay_days = 3 ∧
    (predictOne sens9Shipment tieRiskOf).risk_level = "Medium" ∧
    (predictOne sens9Shipment tieRiskOf).confidence = 7/10 := by
  exact ⟨rfl, rfl, rfl, rfl, rfl, rfl, rfl, rfl, rfl, rfl⟩

/-- C5 (amended).  For every in-transit shipment the predicted delay is
`max(originRisk.delayEstimateDays, destRisk.delayEstimateDays)`; the
reported risk level and factors are those of whichever side produced the
strictly larger delay, with the **destination** preferred deterministically
on a tie; confidence is 0.85 when the reported risk level is High and 0.7
otherwise; and `predict_shipment_delays` produces exactly these
per-shipment predictions for the shipments with status `in_transit`. -/
theorem prediction_max_delay_destination_on_tie
    (riskOf : String → RiskAssessment) (s : ShipmentTracking) (db : DBState) :
    (predictOne s riskOf).predicted_delay_days =
        max (riskOf s.origin).delay_estimate_days
          (riskOf s.destination).delay_estimate_days ∧
    (predictOne s riskOf).risk_level =
        (if (riskOf s.destination).delay_estimate_days <
            (riskOf s.origin).delay_estimate_days
         then (riskOf s.origin).risk_level
         else (riskOf s.destination).risk_level) ∧
    (predictOne s riskOf).risk_factors =
        (if (riskOf s.destination).delay_estimate_days <
            (riskOf s.origin).delay_estimate_days
         then (riskOf s.origin).risk_factors
         else (riskOf s.destination).risk_factors) ∧
    (predictOne s riskOf).confidence =
        (if (predictOne s riskOf).risk_level = "High" then 85/100 else 7/10) ∧
    predict_shipment_delays db none riskOf =
      (db.shipments.filter (fun sh => sh.status == "in_transit")).map
        (fun sh => predictOne sh riskOf) := by
  refine ⟨?_, ?_, ?_, ?_, ?_⟩
  · simp only [predictOne]
    split_ifs with h
    · exact (max_eq_left (by omega)).symm
    · exact (max_eq_right (by omega)).symm
  · simp only [predictOne]
    split_ifs with h h2 h2 <;> first | rfl | omega
  · simp only [predictOne]
    split_ifs with h h2 h2 <;> first | rfl | omega
  · simp only [predictOne, beq_iff_eq]
  · simp [predict_shipment_delays]

/-! ### Resilience-scorer lemmas -/

theorem dedup_toFinset {α : Type} [DecidableEq α] (l : List α) :
    l.dedup.toFinset = l.toFinset := by
  ext x; simp [List.mem_dedup]

theorem length_dedup_filter {α : Type} [DecidableEq α] (l : List α)
    (q : α → Bool) :
    (l.dedup.filter q).length = (l.toFinset.filter (q ·)).card := by
  have hnd : (l.dedup.filter q).Nodup := (List.nodup_dedup l).filter _
  calc (l.dedup.filter q).length
      = (l.dedup.filter q).dedup.length := by rw [hnd.dedup]
    _ = (l.dedup.filter q).toFinset.card := (List.card_toFinset _).symm
    _ = (l.dedup.toFinset.filter (q ·)).card := by rw [List.toFinset_filter]
    _ = (l.toFinset.filter (q ·)).card := by rw [dedup_toFinset]

theorem resilience_score_bounds (db : DBState)
    (riskOf : String → RiskAssessment) :
    0 ≤ (assess_supply_chain_resilience db riskOf).1 ∧
      (assess_supply_chain_resilience db riskOf).1 ≤ 100 := by
  simp only [assess_supply_chain_resilience]
  exact ⟨le_max_left 0 _, max_le (by norm_num) (min_le_left _ _)⟩

theorem healthBand_iff (s : Int) :
    ((if 80 ≤ s then "Excellent" else if 60 ≤ s then "Good"
        else if 40 ≤ s then "Fair" else ("At Risk" : String)) = "Excellent" ↔
      80 ≤ s) ∧
    ((if 80 ≤ s then "Excellent" else if 60 ≤ s then "Good"
        else if 40 ≤ s then "Fair" else ("At Risk" : String)) = "Good" ↔
      60 ≤ s ∧ s < 80) ∧
    ((if 80 ≤ s then "Excellent" else if 60 ≤ s then "Good"
        else if 40 ≤ s then "Fair" else ("At Risk" : String)) = "Fair" ↔
      40 ≤ s ∧ s < 60) ∧
    ((if 80 ≤ s then "Excellent" else if 60 ≤ s then "Good"
        else if 40 ≤ s then "Fair" else ("At Risk" : String)) = "At Risk" ↔
      s < 40) := by
  split_ifs with h1 h2 h3 <;> refine ⟨?_, ?_, ?_, ?_⟩ <;> simp <;> omega

/-- C6.  The resilience score equals 100 minus 15 per Critical product,
minus 5 per Low product, minus 10 per distinct supplier location whose
hazard assessment is High or Medium, minus 5 per active (unresolved) alert,
clamped to [0, 100]; and the health band is Excellent iff score ≥ 80, Good
iff 60 ≤ score < 80, Fair iff 40 ≤ score < 60, and At Risk iff score < 40. -/
theorem resilience_score_clamped_formula (db : DBState)
    (riskOf : String → RiskAssessment) :
    (assess_supply_chain_resilience db riskOf).1 =
      max 0 (min 100 (100
        - ((db.products.filter (fun p => p.status == "Critical")).length : Int) * 15
        - ((db.products.filter (fun p => p.status == "Low")).length : Int) * 5
        - (((db.products.map (fun p => p.supplier_location)).toFinset.filter
            (fun l => (riskOf l).risk_level = "High" ∨
              (riskOf l).risk_level = "Medium")).card : Int) * 10
        - ((db.alerts.filter (fun a => a.resolved = false)).length : Int) * 5)) ∧
    0 ≤ (assess_supply_chain_resilience db riskOf).1 ∧
    (assess_supply_chain_resilience db riskOf).1 ≤ 100 ∧
    ((assess_supply_chain_resilience db riskOf).2 = "Excellent" ↔
      80 ≤ (assess_supply_chain_resilience db riskOf).1) ∧
    ((assess_supply_chain_resilience db riskOf).2 = "Good" ↔
      60 ≤ (assess_supply_chain_resilience db riskOf).1 ∧
        (assess_supply_chain_resilience db riskOf).1 < 80) ∧
    ((assess_supply_chain_resilience db riskOf).2 = "Fair" ↔
      40 ≤ (assess_supply_chain_resilience db riskOf).1 ∧
        (assess_supply_chain_resilience db riskOf).1 < 60) ∧
    ((assess_supply_chain_resilience db riskOf).2 = "At Risk" ↔
      (assess_supply_chain_resilience db riskOf).1 < 40) := by
  have ecount : ((db.products.map (fun p => p.supplier_location)).dedup.filter
      (fun l => (riskOf l).risk_level == "High" ||
        (riskOf l).risk_level == "Medium")).length =
      (((db.products.map (fun p => p.supplier_location)).toFinset.filter
        (fun l => (riskOf l).risk_level = "High" ∨
          (riskOf l).risk_level = "Medium")).card) := by
    rw [length_dedup_filter]
    congr 1
    apply Finset.filter_congr
    intro x _
    simp
  have ealerts : get_active_alerts db =
      db.alerts.filter (fun a => a.resolved = false) := by
    apply List.filter_congr
    intro a _
    cases h : a.resolved <;> simp [h]
  have hscore : (assess_supply_chain_resilience db riskOf).1 =
      max 0 (min 100 (100
        - ((db.products.filter (fun p => p.status == "Critical")).length : Int) * 15
        - ((db.products.filter (fun p => p.status == "Low")).length : Int) * 5
        - (((db.products.map (fun p => p.supplier_location)).toFinset.filter
            (fun l => (riskOf l).risk_level = "High" ∨
              (riskOf l).risk_level = "Medium")).card : Int) * 10
        - ((db.alerts.filter (fun a => a.resolved = false)).length : Int) * 5)) := by
    simp only [assess_supply_chain_resilience, ← ecount, ← ealerts]
  have hband : (assess_supply_chain_resilience db riskOf).2 =
      (if 80 ≤ (assess_supply_chain_resilience db riskOf).1 then "Excellent"
       else if 60 ≤ (assess_supply_chain_resilience db riskOf).1 then "Good"
       else if 40 ≤ (assess_supply_chain_resilience db riskOf).1 then "Fair"
       else "At Risk") := by
    simp only [assess_supply_chain_resilience, ge_iff_le]
  have hge := (resilience_score_bounds db riskOf).1
  have hle := (resilience_score_bounds db riskOf).2
  have hb := healthBand_iff (assess_supply_chain_resilience db riskOf).1
  rw [← hband] at hb
  exact ⟨hscore, hge, hle, hb.1, hb.2.1, hb.2.2.1, hb.2.2.2⟩

/-! ### Stock-status lemmas -/

theorem updateFirstProduct_isSome (ps : List Product) (pid : String) (s : Int) :
    (updateFirstProduct ps pid s).isSome = true ↔ ∃ q ∈ ps, q.id = pid := by
  induction ps with
  | nil => simp [updateFirstProduct]
  | cons p rest ih =>
    by_cases h : p.id = pid
    · simp only [updateFirstProduct, beq_iff_eq, if_pos h, Option.isSome_some,
        true_iff]
      exact ⟨p, List.mem_cons_self p rest, h⟩
    · simp only [updateFirstProduct, beq_iff_eq, if_neg h]
      constructor
      · intro hsome
        have hrest : (updateFirstProduct rest pid s).isSome = true := by
          rcases hu : updateFirstProduct rest pid s with _ | l
          · rw [hu] at hsome; simp at hsome
          · rfl
        obtain ⟨q, hq, hid⟩ := ih.mp hrest
        exact ⟨q, List.mem_cons_of_mem p hq, hid⟩
      · rintro ⟨q, hq, hid⟩
        rcases List.mem_cons.mp hq with rfl | hq
        · exact absurd hid h
        · have hrest := ih.mpr ⟨q, hq, hid⟩
          rcases hu : updateFirstProduct rest pid s with _ | l
          · rw [hu] at hrest; simp at hrest
          · rfl

/-- C7.  For stock ≥ 0 and threshold ≥ 0 the status written by the
stock-update operation is exactly one of OK/Low/Critical, Critical iff
stock = 0, Low iff 0 < stock ≤ threshold, OK otherwise; it is a pure
function of exactly those two inputs, recomputed by `update_stock` on every
stock mutation; and `update_stock` reports success exactly when the product
row exists. -/
theorem stock_status_pure_characterization (s t : Int) (p : Product)
    (db : DBState) (pid : String) (hs : 0 ≤ s) (ht : 0 ≤ t) :
    (stockStatusOf s t = "Critical" ↔ s = 0) ∧
    (stockStatusOf s t = "Low" ↔ 0 < s ∧ s ≤ t) ∧
    (stockStatusOf s t = "OK" ↔ 0 < s ∧ t < s) ∧
    (stockStatusOf s t = "OK" ∨ stockStatusOf s t = "Low" ∨
      stockStatusOf s t = "Critical") ∧
    (updateProductStock p s).status = stockStatusOf s p.reorder_threshold ∧
    (updateProductStock p s).stock_level = s ∧
    ((update_stock db pid s).1 = true ↔ ∃ q ∈ db.products, q.id = pid) := by
  refine ⟨?_, ?_, ?_, ?_, rfl, rfl, ?_⟩
  · simp only [stockStatusOf]; split_ifs <;> simp <;> omega
  · simp only [stockStatusOf]; split_ifs <;> simp <;> omega
  · simp only [stockStatusOf]; split_ifs <;> simp <;> omega
  · simp only [stockStatusOf]; split_ifs <;> simp
  · have h := updateFirstProduct_isSome db.products pid s
    rcases hu : updateFirstProduct db.products pid s with _ | ps2 <;>
      rw [hu] at h <;> simp only [update_stock, hu] <;> simpa using h

/-- Witness for C7 at stock 0, threshold 10 on the `CHIP-X` store. -/
theorem stock_status_pure_characterization_witness :
    (updateProductStock chipXProduct 0).status =
      stockStatusOf 0 chipXProduct.reorder_threshold :=
  (stock_status_pure_characterization 0 10 chipXProduct chipXDB "CHIP-X"
    (by decide) (by decide)).2.2.2.2.1

/-- C8.  A reorder recommendation is emitted for a product iff reorder-now
holds (`daysUntilStockout < adjustedLeadTimeDays + 7`, with
`daysUntilStockout = max 0 ((stock − 5) div 2)` and
`adjustedLeadTimeDays = leadTime + supplier delay estimate`) or
`stockLevel ≤ reorderThreshold`; every emitted recommendation carries
`recommendedQuantity = max(50, reorderThreshold × 2)`; hence every
Low/Critical product appears in the planner's output. -/
theorem reorder_emission_iff (db : DBState)
    (riskOf : String → RiskAssessment) (p : Product) :
    ((reorderOne p riskOf).isSome = true ↔
      (max 0 ((p.stock_level - 5).fdiv 2) <
          p.lead_time_days +
            (riskOf p.supplier_location).delay_estimate_days + 7 ∨
        p.stock_level ≤ p.reorder_threshold)) ∧
    (∀ r, reorderOne p riskOf = some r →
      r.recommended_quantity = max 50 (p.reorder_threshold * 2) ∧
        r.product_id = p.id) ∧
    (p ∈ db.products → p.stock_level ≤ p.reorder_threshold →
      ∃ r ∈ calculate_reorder_recommendations db riskOf,
        r.product_id = p.id) := by
  have hpart1 : (reorderOne p riskOf).isSome = true ↔
      (max 0 ((p.stock_level - 5).fdiv 2) <
          p.lead_time_days +
            (riskOf p.supplier_location).delay_estimate_days + 7 ∨
        p.stock_level ≤ p.reorder_threshold) := by
    simp only [reorderOne]
    split_ifs <;> simp_all <;> omega
  have hpart2 : ∀ r, reorderOne p riskOf = some r →
      r.recommended_quantity = max 50 (p.reorder_threshold * 2) ∧
        r.product_id = p.id := by
    intro r hr
    simp only [reorderOne] at hr
    split_ifs at hr <;> simp only [Option.some.injEq] at hr <;>
      rw [← hr] <;> exact ⟨rfl, rfl⟩
  refine ⟨hpart1, hpart2, ?_⟩
  intro hmem hthr
  obtain ⟨r, hr⟩ := Option.isSome_iff_exists.mp (hpart1.mpr (Or.inr hthr))
  refine ⟨r, ?_, (hpart2 r hr).2⟩
  simp only [calculate_reorder_recommendations]
  exact List.mem_filterMap.mpr ⟨p, hmem, hr⟩

/-- A zero-hazard assessment environment used to instantiate C8. -/
def lowRiskOf : String → RiskAssessment := fun l =>
  { location := l, risk_level := "Low", delay_estimate_days := 0,
    risk_factors := [] }

/-- Witness for C8: the out-of-stock product `CHIP-X` appears in the
planner output. -/
theorem reorder_emission_iff_witness :
    ∃ r ∈ calculate_reorder_recommendations chipXDB lowRiskOf,
      r.product_id = chipXProduct.id :=
  (reorder_emission_iff chipXDB lowRiskOf chipXProduct).2.2 (by decide)
    (by decide)

/-- C9.  When the hazard provider is unreachable or errors out (both
fetches raise), or when no API key is configured at all, the assessment
never propagates an exception — the embedding is a total function whose
fallback branch is taken — and it returns the assessment of the
deterministic location-keyed synthetic dataset: a usable result carrying
the queried location, a non-negative delay estimate and a well-formed risk
level; a full resilience scan over such fallback assessments still
completes with a score in [0, 100]. -/
theorem fallback_assessment_total (svc : WeatherService) (loc e1 e2 : String)
    (dateOf : Nat → String) (netW : FetchOutcome WeatherData)
    (netF : FetchOutcome (List ForecastDay)) (db : DBState) :
    assess_logistics_risk svc loc (.error e1) (.error e2) dateOf =
      assessRisk loc (get_mock_weather loc) (get_mock_forecast dateOf 7) ∧
    assess_logistics_risk ⟨none⟩ loc netW netF dateOf =
      assessRisk loc (get_mock_weather loc) (get_mock_forecast dateOf 7) ∧
    (assess_logistics_risk svc loc (.error e1) (.error e2) dateOf).location =
      loc ∧
    0 ≤ (assess_logistics_risk svc loc (.error e1) (.error e2)
        dateOf).delay_estimate_days ∧
    (assess_logistics_risk svc loc (.error e1) (.error e2) dateOf).risk_level ∈
      (["Low", "Medium", "High"] : List String) ∧
    0 ≤ (assess_supply_chain_resilience db
        (fun l => assess_logistics_risk svc l (.error e1) (.error e2)
          dateOf)).1 ∧
    (assess_supply_chain_resilience db
        (fun l => assess_logistics_risk svc l (.error e1) (.error e2)
          dateOf)).1 ≤ 100 := by
  have h1 : ∀ l, assess_logistics_risk svc l (.error e1) (.error e2) dateOf =
      assessRisk l (get_mock_weather l) (get_mock_forecast dateOf 7) := by
    intro l
    simp only [assess_logistics_risk, get_current_weather,
      get_weather_forecast]
    split_ifs <;> rfl
  have h2 : assess_logistics_risk ⟨none⟩ loc netW netF dateOf =
      assessRisk loc (get_mock_weather loc) (get_mock_forecast dateOf 7) := by
    simp [assess_logistics_risk, get_current_weather, get_weather_forecast,
      mock_mode]
  refine ⟨h1 loc, h2, ?_, ?_, ?_, (resilience_score_bounds _ _).1,
    (resilience_score_bounds _ _).2⟩
  · rw [h1 loc]; rfl
  · rw [h1 loc, assessRisk_delay_eq]
    have := firstRuleDelay_nonneg (get_mock_weather loc)
    omega
  · rw [h1 loc]
    exact assessRisk_level_mem loc _ _

/-! ### Alert-scan lemmas -/

theorem scanShipments_alerts_spec (ss : List ShipmentTracking) :
    ∀ (db : DBState), ∀ a ∈ (scanShipments ss db).1,
      a.alert_type = "delayed_shipment" ∧ a.severity = "High" := by
  induction ss with
  | nil => intro db a ha; simp [scanShipments] at ha
  | cons s rest ih =>
    intro db a ha
    by_cases h : s.delay_days > 3
    · simp only [scanShipments, if_pos h, List.mem_cons] at ha
      rcases ha with rfl | ha
      · exact ⟨rfl, rfl⟩
      · exact ih _ a ha
    · simp only [scanShipments, if_neg h] at ha
      exact ih _ a ha

theorem scanProducts_alerts_spec (ps : List Product) :
    ∀ (db : DBState), ∀ a ∈ (scanProducts ps db).1,
      ∃ p ∈ ps, a.product_id = p.id ∧
        ((a.alert_type = "critical_stock" ∧ a.severity = "High" ∧
            p.stock_level ≤ 0) ∨
         (a.alert_type = "low_stock" ∧ a.severity = "Medium" ∧
            0 < p.stock_level ∧ p.stock_level ≤ p.reorder_threshold)) := by
  induction ps with
  | nil => intro db a ha; simp [scanProducts] at ha
  | cons p rest ih =>
    intro db a ha
    by_cases h1 : p.stock_level ≤ 0
    · simp only [scanProducts, if_pos h1, List.mem_cons] at ha
      rcases ha with rfl | ha
      · exact ⟨p, List.mem_cons_self p rest, rfl, Or.inl ⟨rfl, rfl, h1⟩⟩
      · obtain ⟨q, hq, hrest⟩ := ih _ a ha
        exact ⟨q, List.mem_cons_of_mem p hq, hrest⟩
    · by_cases h2 : p.stock_level ≤ p.reorder_threshold
      · simp only [scanProducts, if_neg h1, if_pos h2, List.mem_cons] at ha
        rcases ha with rfl | ha
        · exact ⟨p, List.mem_cons_self p rest, rfl,
            Or.inr ⟨rfl, rfl, by omega, h2⟩⟩
        · obtain ⟨q, hq, hrest⟩ := ih _ a ha
          exact ⟨q, List.mem_cons_of_mem p hq, hrest⟩
      · simp only [scanProducts, if_neg h1, if_neg h2] at ha
        obtain ⟨q, hq, hrest⟩ := ih _ a ha
        exact ⟨q, List.mem_cons_of_mem p hq, hrest⟩

theorem stockAlertKinds_append (l1 l2 : List AlertData) (pid : String) :
    stockAlertKinds (l1 ++ l2) pid =
      stockAlertKinds l1 pid ++ stockAlertKinds l2 pid := by
  simp [stockAlertKinds, List.filter_append]

theorem stockAlertKinds_eq_nil_of_ids (res : List AlertData) (pid : String)
    (h : ∀ a ∈ res, a.product_id ≠ pid) : stockAlertKinds res pid = [] := by
  have hf : res.filter (fun a =>
      a.product_id == pid &&
        (a.alert_type == "critical_stock" || a.alert_type == "low_stock")) = [] := by
    rw [List.filter_eq_nil]
    intro a ha
    simp [h a ha]
  simp [stockAlertKinds, hf]

theorem stockAlertKinds_eq_nil_of_types (res : List AlertData) (pid : String)
    (h : ∀ a ∈ res, a.alert_type = "delayed_shipment") :
    stockAlertKinds res pid = [] := by
  have hf : res.filter (fun a =>
      a.product_id == pid &&
        (a.alert_type == "critical_stock" || a.alert_type == "low_stock")) = [] := by
    rw [List.filter_eq_nil]
    intro a ha
    simp [h a ha]
  simp [stockAlertKinds, hf]

theorem stockAlertKinds_cons (x : AlertData) (l : List AlertData)
    (pid : String) :
    stockAlertKinds (x :: l) pid =
      stockAlertKinds [x] pid ++ stockAlertKinds l pid := by
  simp only [stockAlertKinds, List.filter_cons]
  split <;> simp

theorem scanProducts_kinds_nil (ps : List Product) (db : DBState)
    (pid : String) (h : pid ∉ ps.map (fun q => q.id)) :
    stockAlertKinds (scanProducts ps db).1 pid = [] := by
  apply stockAlertKinds_eq_nil_of_ids
  intro a ha hcontra
  obtain ⟨q, hq, hid, _⟩ := scanProducts_alerts_spec ps db a ha
  exact h (List.mem_map.mpr ⟨q, hq, by rw [← hid, hcontra]⟩)

theorem scanProducts_kinds (ps : List Product) :
    ∀ (db : DBState) (p : Product), p ∈ ps →
      (ps.map (fun q => q.id)).Nodup →
      stockAlertKinds (scanProducts ps db).1 p.id =
        (if p.stock_level ≤ 0 then [("critical_stock", "High")]
         else if p.stock_level ≤ p.reorder_threshold then
           [("low_stock", "Medium")]
         else []) := by
  induction ps with
  | nil => intro db p hp; exact absurd hp (List.not_mem_nil p)
  | cons q rest ih =>
    intro db p hp hnd
    rw [List.map_cons, List.nodup_cons] at hnd
    rcases List.mem_cons.mp hp with rfl | hp
    · have hnil : ∀ db2, stockAlertKinds (scanProducts rest db2).1 p.id = [] :=
        fun db2 => scanProducts_kinds_nil rest db2 p.id hnd.1
      by_cases h1 : p.stock_level ≤ 0
      · simp only [scanProducts, if_pos h1]
        rw [stockAlertKinds_cons, hnil, List.append_nil]
        simp [stockAlertKinds, alerting_create_alert, create_alert,
          List.filter_cons]
      · by_cases h2 : p.stock_level ≤ p.reorder_threshold
        · simp only [scanProducts, if_neg h1, if_pos h2]
          rw [stockAlertKinds_cons, hnil, List.append_nil]
          simp [stockAlertKinds, alerting_create_alert, create_alert,
            List.filter_cons]
        · simp only [scanProducts, if_neg h1, if_neg h2]
          exact hnil db
    · have hne : q.id ≠ p.id := by
        intro hcontra
        exact hnd.1 (hcontra ▸ List.mem_map.mpr ⟨p, hp, rfl⟩)
      by_cases h1 : q.stock_level ≤ 0
      · simp only [scanProducts, if_pos h1]
        rw [stockAlertKinds_cons]
        have hx : stockAlertKinds [(alerting_create_alert db q.id
            "critical_stock" "High" (q.name ++
              " is OUT OF STOCK! Immediate action required.")).1] p.id = [] := by
          apply stockAlertKinds_eq_nil_of_ids
          intro a ha
          simp only [List.mem_singleton] at ha
          subst ha
          simpa [alerting_create_alert, create_alert] using hne
        rw [hx, List.nil_append]
        exact ih _ p hp hnd.2
      · by_cases h2 : q.stock_level ≤ q.reorder_threshold
        · simp only [scanProducts, if_neg h1, if_pos h2]
          rw [stockAlertKinds_cons]
          have hx : stockAlertKinds [(alerting_create_alert db q.id
              "low_stock" "Medium" (q.name ++
                " stock is below reorder threshold (" ++
                toString q.stock_level ++ "/" ++
                toString q.reorder_threshold ++ ")")).1] p.id = [] := by
            apply stockAlertKinds_eq_nil_of_ids
            intro a ha
            simp only [List.mem_singleton] at ha
            subst ha
            simpa [alerting_create_alert, create_alert] using hne
          rw [hx, List.nil_append]
          exact ih _ p hp hnd.2
        · simp only [scanProducts, if_neg h1, if_neg h2]
          exact ih _ p hp hnd.2

/-- C10.  One scan creates at most one stock-level alert per product:
exactly a `critical_stock`/High alert when `stock_level ≤ 0`, exactly a
`low_stock`/Medium alert when `0 < stock_level ≤ reorder_threshold`, none
otherwise, and never both for the same product; and every alert the scan
creates carries severity High or Medium, never Low. -/
theorem at_most_one_stock_alert_per_product (db : DBState) (p : Product)
    (hnd : (db.products.map (fun q => q.id)).Nodup)
    (hmem : p ∈ db.products) :
    stockAlertKinds (check_and_alert db).1 p.id =
      (if p.stock_level ≤ 0 then [("critical_stock", "High")]
       else if p.stock_level ≤ p.reorder_threshold then
         [("low_stock", "Medium")]
       else []) ∧
    (stockAlertKinds (check_and_alert db).1 p.id).length ≤ 1 ∧
    (∀ a ∈ (check_and_alert db).1,
      a.severity = "High" ∨ a.severity = "Medium") := by
  have hsplit : (check_and_alert db).1 =
      (scanProducts db.products db).1 ++
        (scanShipments
          (get_shipments_by_status (scanProducts db.products db).2.2 "delayed")
          (scanProducts db.products db).2.2).1 := rfl
  have hkinds : stockAlertKinds (check_and_alert db).1 p.id =
      (if p.stock_level ≤ 0 then [("critical_stock", "High")]
       else if p.stock_level ≤ p.reorder_threshold then
         [("low_stock", "Medium")]
       else []) := by
    rw [hsplit, stockAlertKinds_append,
      scanProducts_kinds db.products db p hmem hnd,
      stockAlertKinds_eq_nil_of_types _ _
        (fun a ha => (scanShipments_alerts_spec _ _ a ha).1),
      List.append_nil]
  refine ⟨hkinds, ?_, ?_⟩
  · rw [hkinds]
    split_ifs <;> simp
  · intro a ha
    rw [hsplit] at ha
    rcases List.mem_append.mp ha with ha | ha
    · obtain ⟨q, _, _, hcase⟩ := scanProducts_alerts_spec db.products db a ha
      rcases hcase with ⟨_, hsev, _⟩ | ⟨_, hsev, _⟩
      · exact Or.inl hsev
      · exact Or.inr hsev
    · exact Or.inl (scanShipments_alerts_spec _ _ a ha).2

/-- Witness for C10 on the `CHIP-X` store. -/
theorem at_most_one_stock_alert_per_product_witness :
    (stockAlertKinds (check_and_alert chipXDB).1 chipXProduct.id).length ≤ 1 :=
  (at_most_one_stock_alert_per_product chipXDB chipXProduct (by decide)
    (by decide)).2.1

end SCG
